import Mathlib

/-!
Verification development for the StellarForge procedural universe generator.

The definitions below are a shallow embedding of the Python sources
`src/proc_gen/density_field.py`, `src/proc_gen/galaxy_placer.py` and
`src/proc_gen/universe_generator.py`.  Floating-point scalars are modelled
as rationals (`ℚ`) where the code only moves values around, and as reals
(`ℝ`) where the code applies transcendental functions (`sqrt`, `exp`,
`cos`, `sin`).  Calls into NumPy's global random stream are modelled by
explicit draw parameters: a parameter stands for the array/value that the
corresponding `np.random.*` call returned, and any guarantee the NumPy API
documents for that value (e.g. `randint(a, b)` lies in `[a, b)`, or
`choice(n, k, replace=False)` yields `k` distinct indices below `n`)
appears as an explicit hypothesis of the theorem that needs it.
-/

/-- Rational 3-vector: models a row of a NumPy float array where only
field arithmetic is applied to it. -/
abbrev Vec3 : Type := ℚ × ℚ × ℚ

/-- Real 3-vector: models a row of a NumPy float array in code paths that
apply `sqrt`/`exp`/`cos`/`sin`. -/
abbrev EVec3 : Type := ℝ × ℝ × ℝ

/-- Cast a rational vector to a real vector. -/
def toE (v : Vec3) : EVec3 := ((v.1 : ℝ), (v.2.1 : ℝ), (v.2.2 : ℝ))

/-- Squared Euclidean distance of two rational 3-vectors
(`np.linalg.norm(q - p) ** 2`, computed exactly). -/
def dist2 (q p : Vec3) : ℚ :=
  (q.1 - p.1) ^ 2 + (q.2.1 - p.2.1) ^ 2 + (q.2.2 - p.2.2) ^ 2

/-- Euclidean norm of a real 3-vector (`np.linalg.norm`). -/
noncomputable def enorm (v : EVec3) : ℝ :=
  Real.sqrt (v.1 ^ 2 + v.2.1 ^ 2 + v.2.2 ^ 2)

/-- `orientation / np.linalg.norm(orientation)` from
`GalaxyPlacer._generate_galaxy_properties` (lines 108-109). -/
noncomputable def normalize3 (v : Vec3) : EVec3 :=
  let n : ℝ := enorm (toE v)
  ((v.1 : ℝ) / n, (v.2.1 : ℝ) / n, (v.2.2 : ℝ) / n)

/-- The decidable form of the separation test
`np.linalg.norm(q - p) >= min_separation` used in
`GalaxyPlacer.place_galaxies` (lines 60-63): for rational data,
`m ≤ sqrt (dist2 q p)` holds iff `m ≤ 0 ∨ m ^ 2 ≤ dist2 q p`
(lemma `sepDecide_iff` below). -/
def sepDecide (m : ℚ) (q p : Vec3) : Bool :=
  decide (m ≤ 0 ∨ m ^ 2 ≤ dist2 q p)

/-- Galaxy archetype (`galaxy_type` in `_generate_galaxy_properties`). -/
inductive GalaxyType : Type
  | spiral
  | elliptical
  | irregular
  deriving DecidableEq, Repr

/-- The random draws consumed by one call of
`GalaxyPlacer._generate_galaxy_properties`:
`typeDraw` is the `np.random.choice(['spiral','elliptical','irregular'], ...)`
result, `starDraw` the archetype-dependent `np.random.randint` result,
`rotDraw` the `np.random.uniform(0.5, 2.0)` result, `sizeDraw` the
`np.random.uniform(3.0, 10.0)` result, `orientDraw` the `np.random.randn(3)`
result and `tintDraw` the `np.random.uniform([...], [...])` result. -/
structure GalaxyDraws : Type where
  typeDraw : GalaxyType
  starDraw : ℕ
  rotDraw : ℚ
  sizeDraw : ℚ
  orientDraw : Vec3
  tintDraw : Vec3

/-- The property dictionary built by
`GalaxyPlacer._generate_galaxy_properties` (lines 111-119). -/
structure GalaxyProps : Type where
  gtype : GalaxyType
  position : Vec3
  star_count : ℕ
  size_scale : ℚ
  rotation_speed : ℚ
  orientation : EVec3
  color_tint : Vec3

/-- `GalaxyPlacer._generate_galaxy_properties` (lines 77-119): assembles the
property dictionary from the supplied random draws; `rotation_speed` is the
uniform draw for spirals and `0.0` otherwise, and `orientation` is the
normalized `randn(3)` draw. -/
noncomputable def generate_galaxy_properties (position : Vec3) (dr : GalaxyDraws) :
    GalaxyProps :=
  { gtype := dr.typeDraw
    position := position
    star_count := dr.starDraw
    size_scale := dr.sizeDraw
    rotation_speed := if dr.typeDraw = GalaxyType.spiral then dr.rotDraw else 0
    orientation := normalize3 dr.orientDraw
    color_tint := dr.tintDraw }

/-- The documented range of the archetype-dependent
`np.random.randint` call that produces `star_count`
(`_generate_galaxy_properties`, lines 94-99). -/
def starDrawInRange (dr : GalaxyDraws) : Prop :=
  match dr.typeDraw with
  | GalaxyType.spiral => 1000 ≤ dr.starDraw ∧ dr.starDraw < 5000
  | GalaxyType.elliptical => 500 ≤ dr.starDraw ∧ dr.starDraw < 3000
  | GalaxyType.irregular => 200 ≤ dr.starDraw ∧ dr.starDraw < 1000

/-- The selection loop of `GalaxyPlacer.place_galaxies` (lines 49-65):
walks the shuffled candidate indices, stops once `num` positions are
selected, accepts the first position unconditionally and every later one
only when it is at least `min_separation` away from all already selected
positions. -/
def selectLoop (dps : List Vec3) (num : ℕ) (m : ℚ) :
    List ℕ → List Vec3 → List Vec3
  | [], acc => acc
  | idx :: rest, acc =>
    if num ≤ acc.length then acc
    else
      let pos := dps.getD idx (0, 0, 0)
      if acc.length = 0 then
        selectLoop dps num m rest (acc ++ [pos])
      else if acc.all fun q => sepDecide m q pos then
        selectLoop dps num m rest (acc ++ [pos])
      else
        selectLoop dps num m rest acc

/-- `GalaxyPlacer.place_galaxies` (lines 18-75).  `shuffled` is the result
of `np.random.shuffle(list(range(len(density_positions))))` and `dr i` the
random draws consumed by `_generate_galaxy_properties` for the `i`-th
accepted position. -/
noncomputable def place_galaxies (density_positions : List Vec3)
    (num_galaxies : Option ℕ) (min_separation : ℚ) (shuffled : List ℕ)
    (dr : ℕ → GalaxyDraws) : List Vec3 × List GalaxyProps :=
  if density_positions.length = 0 then ([], [])
  else
    let num : ℕ :=
      match num_galaxies with
      | none => density_positions.length
      | some n => min n density_positions.length
    let selected := selectLoop density_positions num min_separation shuffled []
    (selected, selected.enum.map fun e => generate_galaxy_properties e.2 (dr e.1))

/-- The random draws consumed by one call of
`GalaxyPlacer.generate_galaxy_particles`, i.e. by one of the three
archetype generators.  Each field stands for the array returned by the
corresponding `np.random.*` call:
for spirals `bulge = randn(bulge_count, 3)`, `rdraw = exponential(scale*0.4,
arm_count)`, `thetaDraw = uniform(0, 4*pi, arm_count)`, `zdraw = normal(0,
scale*0.05, arm_count)`, `vzdraw = normal(0, 0.05, arm_count)`;
for ellipticals `edir = randn(count, 3)`, `eradii = exponential(scale*0.5,
count)`, `evel = randn(count, 3)`;
for irregulars `ibase = uniform(-scale, scale, (count, 3))`,
`inumClumps = randint(2, 5)`, `icCenter c = uniform(-scale*0.5, scale*0.5, 3)`,
`icSize c = uniform(scale*0.2, scale*0.4)`, `icPts c = randn(clump_count, 3)`
for the `c`-th clump, and `ivel = randn(count, 3)`. -/
structure SynthDraws : Type where
  bulge : ℕ → EVec3
  rdraw : ℕ → ℝ
  thetaDraw : ℕ → ℝ
  zdraw : ℕ → ℝ
  vzdraw : ℕ → ℝ
  edir : ℕ → EVec3
  eradii : ℕ → ℝ
  evel : ℕ → EVec3
  ibase : ℕ → EVec3
  inumClumps : ℕ
  icCenter : ℕ → EVec3
  icSize : ℕ → ℝ
  icPts : ℕ → ℕ → EVec3
  ivel : ℕ → EVec3

/-- Untranslated particle data of `GalaxyPlacer._generate_spiral_galaxy`
(lines 155-188): bulge (`randn * scale * 0.3`, zero velocities) stacked
with the spiral arms (`x = r cos θ`, `y = r sin θ`, tangential velocity of
magnitude `rotation_speed / sqrt(max(r, 0.1))`), before `+ center`. -/
noncomputable def spiralLocal (count : ℕ) (scale rot : ℝ) (d : SynthDraws) :
    List EVec3 × List EVec3 :=
  let bulge_count : ℕ := 3 * count / 10
  let arm_count : ℕ := count - bulge_count
  let bulge_pos := (List.range bulge_count).map fun i => (scale * (3 / 10)) • d.bulge i
  let bulge_vel := (List.range bulge_count).map fun _ => ((0 : ℝ), (0 : ℝ), (0 : ℝ))
  let theta : ℕ → ℝ := fun i => d.thetaDraw i + d.rdraw i / (scale * (2 / 10)) * Real.pi
  let arm_pos := (List.range arm_count).map fun i =>
    (d.rdraw i * Real.cos (theta i), d.rdraw i * Real.sin (theta i), d.zdraw i)
  let vmag : ℕ → ℝ := fun i => rot / Real.sqrt (max (d.rdraw i) (1 / 10))
  let arm_vel := (List.range arm_count).map fun i =>
    (-Real.sin (theta i) * vmag i, Real.cos (theta i) * vmag i, d.vzdraw i)
  (bulge_pos ++ arm_pos, bulge_vel ++ arm_vel)

/-- Untranslated particle data of `GalaxyPlacer._generate_elliptical_galaxy`
(lines 190-205): `randn` directions normalized by `max(norm, 0.01)`, scaled
by exponential radii, with `randn * 0.2` velocities, before `+ center`. -/
noncomputable def ellipticalLocal (count : ℕ) (d : SynthDraws) :
    List EVec3 × List EVec3 :=
  let dir : ℕ → EVec3 := fun i => (1 / max (enorm (d.edir i)) (1 / 100)) • d.edir i
  let pos := (List.range count).map fun i => d.eradii i • dir i
  let vel := (List.range count).map fun i => ((2 : ℝ) / 10) • d.evel i
  (pos, vel)

/-- `positions[:clump_count] = clump_positions` from
`_generate_irregular_galaxy` (line 221): overwrite the leading
`new.length` entries of `pos`. -/
def overwriteFront (pos new : List EVec3) : List EVec3 :=
  new ++ pos.drop new.length

/-- The `clump_positions = randn(clump_count, 3) * clump_size + clump_center`
array of the `c`-th clump (`_generate_irregular_galaxy`, line 220). -/
noncomputable def clumpList (d : SynthDraws) (clump_count : ℕ) (c : ℕ) :
    List EVec3 :=
  (List.range clump_count).map fun i => d.icSize c • d.icPts c i + d.icCenter c

/-- Untranslated particle data of `GalaxyPlacer._generate_irregular_galaxy`
(lines 207-228): a uniform cube of `count` particles whose leading
`count // num_clumps` entries are overwritten once per clump, with
`randn * 0.3` velocities, before `+= center`. -/
noncomputable def irregularLocal (count : ℕ) (d : SynthDraws) :
    List EVec3 × List EVec3 :=
  let base := (List.range count).map d.ibase
  let clump_count : ℕ := count / d.inumClumps
  let pos := (List.range d.inumClumps).foldl
    (fun acc c => overwriteFront acc (clumpList d clump_count c)) base
  let vel := (List.range count).map fun i => ((3 : ℝ) / 10) • d.ivel i
  (pos, vel)

/-- The untranslated particle data of whichever archetype generator
`generate_galaxy_particles` dispatches to. -/
noncomputable def synthUntranslated (p : GalaxyProps) (d : SynthDraws) :
    List EVec3 × List EVec3 :=
  match p.gtype with
  | GalaxyType.spiral =>
      spiralLocal p.star_count (p.size_scale : ℝ) (p.rotation_speed : ℝ) d
  | GalaxyType.elliptical => ellipticalLocal p.star_count d
  | GalaxyType.irregular => irregularLocal p.star_count d

/-- The dispatch body of `GalaxyPlacer.generate_galaxy_particles`
(lines 140-153): every archetype generator returns its untranslated
positions shifted by the galaxy center, and its velocities unshifted. -/
noncomputable def synthesizeStructure (p : GalaxyProps) (d : SynthDraws) :
    List EVec3 × List EVec3 :=
  ((synthUntranslated p d).1.map fun q => q + toE p.position,
   (synthUntranslated p d).2)

/-- Python list indexing `l[i]`: non-negative indices are looked up
directly, negative indices count from the end, anything else is an
`IndexError` (`none`). -/
def pyGet {α : Type} (l : List α) (i : ℤ) : Option α :=
  if 0 ≤ i then l.get? i.toNat
  else if 0 ≤ i + l.length then l.get? (i + l.length).toNat
  else none

/-- `GalaxyPlacer.generate_galaxy_particles` (lines 121-153): raises
`ValueError` when `galaxy_idx >= len(self.galaxy_properties)` and
otherwise synthesizes the galaxy found by Python list indexing
(which accepts negative indices). -/
noncomputable def generate_galaxy_particles (props : List GalaxyProps)
    (galaxy_idx : ℤ) (d : SynthDraws) :
    Except String (List EVec3 × List EVec3) :=
  if (props.length : ℤ) ≤ galaxy_idx then Except.error "Invalid galaxy index"
  else
    match pyGet props galaxy_idx with
    | some p => Except.ok (synthesizeStructure p d)
    | none => Except.error "list index out of range"

/-- A 3D grid of scalar values
(`self.field` in `DensityField`, a NumPy array of shape `(sx, sy, sz)`). -/
abbrev Grid (α : Type) : Type := List (List (List α))

/-- Build a grid of shape `vs` from a value function — the triple loop
`for i: for j: for k: field[i, j, k] = f(i, j, k)`. -/
def gridOf {α : Type} (vs : ℕ × ℕ × ℕ) (f : ℕ → ℕ → ℕ → α) : Grid α :=
  (List.range vs.1).map fun i =>
    (List.range vs.2.1).map fun j =>
      (List.range vs.2.2).map fun k => f i j k

/-- All values stored in a grid. -/
def gridVals {α : Type} (g : Grid α) : List α := g.flatten.flatten

/-- The value stored at voxel `(i, j, k)`, if the indices are in range. -/
def valAt {α : Type} (g : Grid α) (v : ℕ × ℕ × ℕ) : Option α :=
  (g[v.1]?.bind fun p => p[v.2.1]?).bind fun r => r[v.2.2]?

/-- Shape predicate: the grid has exactly the dimensions `vs`
(`field.shape == volume_size`). -/
def gridShape {α : Type} (g : Grid α) (vs : ℕ × ℕ × ℕ) : Prop :=
  g.length = vs.1 ∧ (∀ p ∈ g, p.length = vs.2.1 ∧ ∀ r ∈ p, r.length = vs.2.2)

/-- Every voxel of `(i, k), v)` pairs of a grid, in `np.argwhere` order:
index triple paired with the stored value. -/
def gridTriples {α : Type} (g : Grid α) : List ((ℕ × ℕ × ℕ) × α) :=
  g.enum.flatMap fun ip =>
    ip.2.enum.flatMap fun jr =>
      jr.2.enum.map fun kv => ((ip.1, jr.1, kv.1), kv.2)

/-- `np.argwhere(self.field > threshold)` from
`DensityField.get_high_density_positions` (line 122): the index triples of
all voxels whose value strictly exceeds the threshold, in array order. -/
def highIdxG {α : Type} [LinearOrder α] (g : Grid α) (t : α) :
    List (ℕ × ℕ × ℕ) :=
  ((gridTriples g).filter fun e => decide (t < e.2)).map Prod.fst

/-- The body of `DensityField.get_high_density_positions` (lines 121-132)
after the `self.field is None` check: returns the empty list when no voxel
qualifies, subsamples via the `np.random.choice(len, max_positions,
replace=False)` result `choice` when more than `max_positions` qualify,
and returns all qualifying voxels otherwise. -/
def getHighCore {α : Type} [LinearOrder α] (g : Grid α) (t : α)
    (max_positions : ℕ) (choice : List ℕ) : List (ℕ × ℕ × ℕ) :=
  let hd := highIdxG g t
  if hd.length = 0 then []
  else if max_positions < hd.length then
    choice.map fun i => hd.getD i (0, 0, 0)
  else hd

/-- `DensityField.get_high_density_positions` (lines 106-132) including the
precondition check `if self.field is None: raise ValueError(...)`. -/
def density_get_high_density_positions {α : Type} [LinearOrder α]
    (field : Option (Grid α)) (t : α) (max_positions : ℕ) (choice : List ℕ) :
    Except String (List (ℕ × ℕ × ℕ)) :=
  match field with
  | none => Except.error "Field not generated yet"
  | some g => Except.ok (getHighCore g t max_positions choice)

/-- `DensityField.apply_threshold` (lines 91-104): precondition check, then
the binary mask `(self.field > threshold).astype(np.float32)`. -/
noncomputable def density_apply_threshold (field : Option (Grid ℝ)) (threshold : ℝ) :
    Except String (Grid ℝ) :=
  match field with
  | none => Except.error "Field not generated yet"
  | some g =>
      Except.ok (g.map (List.map (List.map fun v =>
        if threshold < v then (1 : ℝ) else 0)))

/-- The body of `DensityField.add_gradient` (lines 170-186) after the
precondition check: multiply every voxel by
`exp(-dist**2 / (2 * falloff**2))` where `dist` is the norm of the
per-axis normalized offset from `center`. -/
noncomputable def addGradientCore (g : Grid ℝ) (vs : ℕ × ℕ × ℕ)
    (center : ℝ × ℝ × ℝ) (falloff : ℝ) : Grid ℝ :=
  g.enum.map fun ip =>
    ip.2.enum.map fun jr =>
      jr.2.enum.map fun kv =>
        let dx : ℝ := ((ip.1 : ℝ) - center.1) / (vs.1 : ℝ)
        let dy : ℝ := ((jr.1 : ℝ) - center.2.1) / (vs.2.1 : ℝ)
        let dz : ℝ := ((kv.1 : ℝ) - center.2.2) / (vs.2.2 : ℝ)
        let dist : ℝ := Real.sqrt (dx ^ 2 + dy ^ 2 + dz ^ 2)
        kv.2 * Real.exp (-dist ^ 2 / (2 * falloff ^ 2))

/-- `DensityField.add_gradient` (lines 158-186) including the precondition
check `if self.field is None: raise ValueError(...)`. -/
noncomputable def density_add_gradient (field : Option (Grid ℝ))
    (vs : ℕ × ℕ × ℕ) (center : ℝ × ℝ × ℝ) (falloff : ℝ) :
    Except String (Grid ℝ) :=
  match field with
  | none => Except.error "Field not generated yet"
  | some g => Except.ok (addGradientCore g vs center falloff)

/-- The `noise_type` argument of `DensityField.generate`. -/
inductive NoiseType : Type
  | perlin
  | simplex
  deriving DecidableEq, Repr

/-- The external noise backend and external random sources consumed by
`DensityField.generate`.  `available` is the module flag `NOISE_AVAILABLE`;
`pn` and `sn` model the library functions `pnoise3`/`snoise3` as pure
functions of `(x, y, z, octaves, persistence, lacunarity, base)`;
`randomField s` models the array `np.random.random((sx, sy, sz))` drawn
right after `np.random.seed(s)` — a pure function of the seed, per NumPy's
seeding contract. -/
structure NoiseEnv : Type where
  available : Bool
  pn : ℝ → ℝ → ℝ → ℕ → ℝ → ℝ → ℕ → ℝ
  sn : ℝ → ℝ → ℝ → ℕ → ℝ → ℝ → ℕ → ℝ
  randomField : ℕ → ℕ → ℕ → ℕ → ℝ

/-- The smoothing step `gaussian_filter(self.field, sigma=2.0)` of the
fallback path, modelled from the documented contract of
`scipy.ndimage.gaussian_filter`: each output voxel is a weighted sum of
input voxels with a normalized non-negative kernel `w` (the Gaussian
weights combined with boundary reflection).  The kernel is a parameter;
its normalization appears as a hypothesis where a theorem needs it. -/
noncomputable def smooth3 (vs : ℕ × ℕ × ℕ)
    (w : (ℕ × ℕ × ℕ) → (ℕ × ℕ × ℕ) → ℝ) (g : ℕ → ℕ → ℕ → ℝ)
    (i j k : ℕ) : ℝ :=
  ∑ u ∈ Finset.range vs.1 ×ˢ Finset.range vs.2.1 ×ˢ Finset.range vs.2.2,
    w (i, j, k) u * g u.1 u.2.1 u.2.2

/-- `DensityField.generate` (lines 39-89).  When a seed is supplied it is
used as the noise base / RNG seed; otherwise the ambient-stream draw
`rngDraw` (modelling `np.random.randint(0, 10000)`) is consumed.  With the
noise backend available, each voxel is the chosen backend evaluated at the
scaled indices, normalized by `(value + 1.0) / 2.0`; otherwise the field is
the freshly seeded random array smoothed by the Gaussian kernel `w`. -/
noncomputable def density_generate (vs : ℕ × ℕ × ℕ) (seed : Option ℕ)
    (noise_type : NoiseType) (octaves : ℕ) (persistence lacunarity scl : ℝ)
    (env : NoiseEnv) (rngDraw : ℕ)
    (w : (ℕ × ℕ × ℕ) → (ℕ × ℕ × ℕ) → ℝ) : Grid ℝ :=
  let s : ℕ := seed.getD rngDraw
  if env.available then
    let nf := match noise_type with
      | NoiseType.perlin => env.pn
      | NoiseType.simplex => env.sn
    gridOf vs fun i j k =>
      (nf ((i : ℝ) * scl) ((j : ℝ) * scl) ((k : ℝ) * scl)
        octaves persistence lacunarity s + 1) / 2
  else
    gridOf vs fun i j k => smooth3 vs w (env.randomField s) i j k

/-- `DensityField.normalize_positions` (lines 134-156): early return on an
empty input, otherwise center each grid coordinate by half the grid extent
and scale by `world_scale / max(self.volume_size)`. -/
def normalize_positions (vs : ℕ × ℕ × ℕ) (positions : List (ℕ × ℕ × ℕ))
    (world_scale : ℚ) : List Vec3 :=
  if positions.length = 0 then []
  else
    let scale_factor : ℚ := world_scale / (max (vs.1 : ℚ) (max (vs.2.1 : ℚ) (vs.2.2 : ℚ)))
    positions.map fun p =>
      (((p.1 : ℚ) - (vs.1 : ℚ) / 2) * scale_factor,
       ((p.2.1 : ℚ) - (vs.2.1 : ℚ) / 2) * scale_factor,
       ((p.2.2 : ℚ) - (vs.2.2 : ℚ) / 2) * scale_factor)

/-- The random draws consumed by one `UniverseGenerator.generate_universe`
call beyond those of the density field: `rngDraw` for a `seed=None`
density-field call, `hdChoice` for the candidate subsampling, `shuffleOf n`
for the placement shuffle over `n` candidates, `galaxy i` for the `i`-th
accepted galaxy's properties, `synth i` for the `i`-th galaxy's particle
synthesis, and `fallPos`/`fallVel` for the fallback
`uniform(-world_scale/2, world_scale/2, (total, 3))` and `randn(total, 3)`
arrays. -/
structure UDraws : Type where
  rngDraw : ℕ
  hdChoice : List ℕ
  shuffleOf : ℕ → List ℕ
  galaxy : ℕ → GalaxyDraws
  synth : ℕ → SynthDraws
  fallPos : ℕ → EVec3
  fallVel : ℕ → EVec3

/-- `UniverseGenerator._generate_random_universe` (lines 110-122):
`num_galaxies * 1000` uniform positions, `randn * 0.5` velocities and
all-zero (star) type tags. -/
noncomputable def random_universe (num_galaxies : ℕ)
    (pos vel : ℕ → EVec3) : List EVec3 × List EVec3 × List ℤ :=
  let total := num_galaxies * 1000
  ((List.range total).map pos,
   (List.range total).map fun i => ((1 : ℝ) / 2) • vel i,
   List.replicate total (0 : ℤ))

/-- Steps 1-2 of `UniverseGenerator.generate_universe` (lines 44-70):
generate the density field with the fixed parameters
(`perlin`, 4 octaves, persistence 0.5, default lacunarity 2.0, scale 0.05),
apply the centering gradient (grid center, falloff 0.4), extract up to
`2 * num_galaxies` candidates at threshold 0.5 and map them to world
coordinates. -/
noncomputable def universeCandidates (seed : Option ℕ) (vs : ℕ × ℕ × ℕ)
    (num_galaxies : ℕ) (world_scale : ℚ) (env : NoiseEnv)
    (w : (ℕ × ℕ × ℕ) → (ℕ × ℕ × ℕ) → ℝ) (d : UDraws) : List Vec3 :=
  let field := density_generate vs seed NoiseType.perlin 4 (1 / 2) 2 (5 / 100)
    env d.rngDraw w
  let center : ℝ × ℝ × ℝ := ((vs.1 / 2 : ℕ), (vs.2.1 / 2 : ℕ), (vs.2.2 / 2 : ℕ))
  let graded := addGradientCore field vs center (2 / 5)
  let hd := getHighCore graded (1 / 2) (num_galaxies * 2) d.hdChoice
  normalize_positions vs hd world_scale

/-- `UniverseGenerator.generate_universe` (lines 25-108): build the field,
extract and place galaxies, and either fall back to
`_generate_random_universe` when no galaxy position was accepted or
synthesize each accepted galaxy's particles (unwrapping the
always-successful in-range call of `generate_galaxy_particles`) and
concatenate positions, velocities and all-star type tags. -/
noncomputable def generate_universe (seed : Option ℕ) (vs : ℕ × ℕ × ℕ)
    (num_galaxies : ℕ) (world_scale : ℚ) (env : NoiseEnv)
    (w : (ℕ × ℕ × ℕ) → (ℕ × ℕ × ℕ) → ℝ) (d : UDraws) :
    List EVec3 × List EVec3 × List ℤ :=
  let world := universeCandidates seed vs num_galaxies world_scale env w d
  let placed := place_galaxies world (some num_galaxies)
    (world_scale * (15 / 100)) (d.shuffleOf world.length) d.galaxy
  if placed.1.length = 0 then
    random_universe num_galaxies d.fallPos d.fallVel
  else
    let parts := (List.range placed.1.length).map fun i =>
      match generate_galaxy_particles placed.2 (Int.ofNat i) (d.synth i) with
      | Except.ok pr => pr
      | Except.error _ => ([], [])
    ((parts.map Prod.fst).flatten,
     (parts.map fun pr => pr.2).flatten,
     (parts.map fun pr => List.replicate pr.1.length (0 : ℤ)).flatten)

/-- The pairwise separation invariant maintained by `selectLoop`. -/
def pairSep (m : ℚ) (l : List Vec3) : Prop :=
  l.Pairwise fun a b => sepDecide m a b = true

/-- A concrete noise environment used to instantiate theorems. -/
noncomputable def envC : NoiseEnv :=
  { available := true
    pn := fun _ _ _ _ _ _ _ => 0
    sn := fun _ _ _ _ _ _ _ => 0
    randomField := fun _ _ _ _ => 0 }

/-- Concrete synthesis draws used to instantiate theorems. -/
noncomputable def synthC : SynthDraws :=
  { bulge := fun _ => (0, 0, 0)
    rdraw := fun _ => 0
    thetaDraw := fun _ => 0
    zdraw := fun _ => 0
    vzdraw := fun _ => 0
    edir := fun _ => (1, 0, 0)
    eradii := fun _ => 1
    evel := fun _ => (0, 0, 0)
    ibase := fun _ => (0, 0, 0)
    inumClumps := 2
    icCenter := fun _ => (0, 0, 0)
    icSize := fun _ => 1
    icPts := fun _ _ => (0, 0, 0)
    ivel := fun _ => (0, 0, 0) }

/-- Concrete galaxy property draws used to instantiate theorems. -/
def galaxyDrawsC : GalaxyDraws :=
  { typeDraw := GalaxyType.elliptical
    starDraw := 500
    rotDraw := 1
    sizeDraw := 5
    orientDraw := (1, 0, 0)
    tintDraw := (1, 1, 1) }

/-- A concrete galaxy property record used to instantiate theorems. -/
noncomputable def propsC : GalaxyProps :=
  { gtype := GalaxyType.elliptical
    position := (0, 0, 0)
    star_count := 3
    size_scale := 1
    rotation_speed := 0
    orientation := (1, 0, 0)
    color_tint := (1, 1, 1) }

/-- Concrete universe draws used to instantiate theorems. -/
noncomputable def udrawsC : UDraws :=
  { rngDraw := 0
    hdChoice := []
    shuffleOf := fun n => List.range n
    galaxy := fun _ => galaxyDrawsC
    synth := fun _ => synthC
    fallPos := fun _ => (0, 0, 0)
    fallVel := fun _ => (0, 0, 0) }

/-- A concrete irregular-archetype property record used to instantiate
theorems. -/
noncomputable def propsIrr : GalaxyProps :=
  { gtype := GalaxyType.irregular
    position := (0, 0, 0)
    star_count := 4
    size_scale := 1
    rotation_speed := 0
    orientation := (1, 0, 0)
    color_tint := (1, 1, 1) }

/-! ### Helper lemmas -/

lemma sepDecide_iff (m : ℚ) (q p : Vec3) :
    sepDecide m q p = true ↔ (m : ℝ) ≤ Real.sqrt ((dist2 q p : ℚ) : ℝ) := by
  have hd : (0 : ℚ) ≤ dist2 q p := by unfold dist2; positivity
  have hcast : ((m : ℝ)) ^ 2 = ((m ^ 2 : ℚ) : ℝ) := by push_cast; ring
  simp only [sepDecide, decide_eq_true_eq]
  constructor
  · rintro (hm | hm)
    · exact le_trans (by exact_mod_cast hm) (Real.sqrt_nonneg _)
    · rcases le_or_lt m 0 with h0 | h0
      · exact le_trans (by exact_mod_cast h0) (Real.sqrt_nonneg _)
      · refine (Real.le_sqrt' (by exact_mod_cast h0)).2 ?_
        rw [hcast]
        exact_mod_cast hm
  · intro h
    rcases le_or_lt m 0 with h0 | h0
    · exact Or.inl h0
    · right
      have h2 : ((m : ℝ)) ^ 2 ≤ ((dist2 q p : ℚ) : ℝ) :=
        (Real.le_sqrt' (by exact_mod_cast h0)).1 h
      rw [hcast] at h2
      exact_mod_cast h2

lemma enorm_normalize3 (v : Vec3) (hv : v ≠ ((0 : ℚ), (0 : ℚ), (0 : ℚ))) :
    enorm (normalize3 v) = 1 := by
  obtain ⟨x, y, z⟩ := v
  have hne : ¬(x = 0 ∧ y = 0 ∧ z = 0) := by
    intro h
    exact hv (by simp [h.1, h.2.1, h.2.2])
  have hs : 0 < (x : ℝ) ^ 2 + (y : ℝ) ^ 2 + (z : ℝ) ^ 2 := by
    rcases not_and_or.1 hne with hx | hyz
    · have : (0 : ℝ) < (x : ℝ) ^ 2 := by
        have : (x : ℝ) ≠ 0 := by exact_mod_cast hx
        positivity
      nlinarith [sq_nonneg (y : ℝ), sq_nonneg (z : ℝ)]
    · rcases not_and_or.1 (fun h => hyz ⟨h.1, h.2⟩) with hy | hz
      · have : (0 : ℝ) < (y : ℝ) ^ 2 := by
          have : (y : ℝ) ≠ 0 := by exact_mod_cast hy
          positivity
        nlinarith [sq_nonneg (x : ℝ), sq_nonneg (z : ℝ)]
      · have : (0 : ℝ) < (z : ℝ) ^ 2 := by
          have : (z : ℝ) ≠ 0 := by exact_mod_cast hz
          positivity
        nlinarith [sq_nonneg (x : ℝ), sq_nonneg (y : ℝ)]
  set s : ℝ := (x : ℝ) ^ 2 + (y : ℝ) ^ 2 + (z : ℝ) ^ 2 with hs_def
  have hn : Real.sqrt s > 0 := Real.sqrt_pos.2 hs
  have hnsq : Real.sqrt s ^ 2 = s := Real.sq_sqrt hs.le
  unfold enorm normalize3 toE enorm
  simp only
  have : (x : ℝ) ^ 2 / Real.sqrt s ^ 2 + (y : ℝ) ^ 2 / Real.sqrt s ^ 2 +
      (z : ℝ) ^ 2 / Real.sqrt s ^ 2 = 1 := by
    rw [hnsq]
    field_simp
  rw [div_pow, div_pow, div_pow]
  rw [show (x : ℝ) ^ 2 / Real.sqrt ((x : ℝ) ^ 2 + (y : ℝ) ^ 2 + (z : ℝ) ^ 2) ^ 2 +
      (y : ℝ) ^ 2 / Real.sqrt ((x : ℝ) ^ 2 + (y : ℝ) ^ 2 + (z : ℝ) ^ 2) ^ 2 +
      (z : ℝ) ^ 2 / Real.sqrt ((x : ℝ) ^ 2 + (y : ℝ) ^ 2 + (z : ℝ) ^ 2) ^ 2 = 1 from this]
  exact Real.sqrt_one

lemma selectLoop_pairSep (dps : List Vec3) (num : ℕ) (m : ℚ) (sh : List ℕ)
    (acc : List Vec3) (h : pairSep m acc) :
    pairSep m (selectLoop dps num m sh acc) := by
  induction sh generalizing acc with
  | nil => simpa [selectLoop]
  | cons idx rest ih =>
    rw [selectLoop]
    dsimp only
    split
    · exact h
    · split
      · apply ih
        have hacc : acc = [] := List.length_eq_zero.1 (by assumption)
        subst hacc
        simp [pairSep]
      · split
        · apply ih
          rename_i hall
          refine List.pairwise_append.2 ⟨h, List.pairwise_singleton _ _, ?_⟩
          intro a ha b hb
          rw [List.mem_singleton] at hb
          subst hb
          exact List.all_eq_true.1 hall a ha
        · exact ih acc h

lemma selectLoop_length_le (dps : List Vec3) (num : ℕ) (m : ℚ) (sh : List ℕ)
    (acc : List Vec3) (h : acc.length ≤ num) :
    (selectLoop dps num m sh acc).length ≤ num := by
  induction sh generalizing acc with
  | nil => simpa [selectLoop]
  | cons idx rest ih =>
    rw [selectLoop]
    dsimp only
    split
    · exact h
    · rename_i hlt
      push_neg at hlt
      split
      · exact ih _ (by simpa using hlt)
      · split
        · exact ih _ (by simpa using hlt)
        · exact ih acc h

lemma selectLoop_zero (dps : List Vec3) (m : ℚ) (sh : List ℕ) :
    selectLoop dps 0 m sh [] = [] := by
  cases sh with
  | nil => rw [selectLoop]
  | cons idx rest => rw [selectLoop]; simp

lemma place_galaxies_zero (dps : List Vec3) (m : ℚ) (sh : List ℕ)
    (dr : ℕ → GalaxyDraws) :
    place_galaxies dps (some 0) m sh dr = ([], []) := by
  unfold place_galaxies
  split
  · rfl
  · simp [selectLoop_zero]

lemma place_galaxies_lengths (dps : List Vec3) (ng : Option ℕ) (m : ℚ)
    (sh : List ℕ) (dr : ℕ → GalaxyDraws) :
    (place_galaxies dps ng m sh dr).2.length = (place_galaxies dps ng m sh dr).1.length := by
  unfold place_galaxies
  split
  · rfl
  · simp

/-! ### Claim theorems -/

/-- C5: with the coherent-noise backend available, two calls of
`DensityField.generate` with the same fixed seed and identical parameters
(`noise_type`, `octaves`, `persistence`, `lacunarity`, `scale`) produce
identical fields — the result does not depend on the ambient random stream
(modelled by the `rngDraw` draw) or on the fallback smoothing kernel. -/
theorem C5_generate_deterministic (vs : ℕ × ℕ × ℕ) (s : ℕ) (nt : NoiseType)
    (octaves : ℕ) (persistence lacunarity scl : ℝ) (env : NoiseEnv)
    (h : env.available = true) (rng1 rng2 : ℕ)
    (w1 w2 : (ℕ × ℕ × ℕ) → (ℕ × ℕ × ℕ) → ℝ) :
    density_generate vs (some s) nt octaves persistence lacunarity scl env rng1 w1 =
      density_generate vs (some s) nt octaves persistence lacunarity scl env rng2 w2 := by
  unfold density_generate
  rw [h]
  simp

/-- Witness for C5 at a concrete instantiation. -/
theorem C5_generate_deterministic_witness :
    envC.available = true ∧
    density_generate (2, 2, 2) (some 42) NoiseType.perlin 4 (1 / 2) 2 (5 / 100)
        envC 7 (fun _ _ => 0) =
      density_generate (2, 2, 2) (some 42) NoiseType.perlin 4 (1 / 2) 2 (5 / 100)
        envC 9 (fun _ _ => 1) :=
  ⟨rfl, C5_generate_deterministic (2, 2, 2) 42 NoiseType.perlin 4 (1 / 2) 2 (5 / 100)
    envC rfl 7 9 _ _⟩

/-- C7: calling `apply_threshold`, `get_high_density_positions` or
`add_gradient` before `generate` has produced a field (i.e. with
`self.field is None`) raises the precondition-violation `ValueError`
"Field not generated yet"; none of them returns a value in that state. -/
theorem C7_precondition_errors (t t' : ℝ) (max_positions : ℕ)
    (choice : List ℕ) (vs : ℕ × ℕ × ℕ) (center : ℝ × ℝ × ℝ) (falloff : ℝ) :
    density_apply_threshold none t = Except.error "Field not generated yet" ∧
    density_get_high_density_positions (α := ℝ) none t' max_positions choice =
      Except.error "Field not generated yet" ∧
    density_add_gradient none vs center falloff =
      Except.error "Field not generated yet" :=
  ⟨rfl, rfl, rfl⟩

/-- C8: requesting particle synthesis for any index greater than or equal
to the number of placed structures raises the out-of-range `ValueError`
instead of returning particles. -/
theorem C8_index_out_of_range (props : List GalaxyProps) (galaxy_idx : ℤ)
    (d : SynthDraws) (h : (props.length : ℤ) ≤ galaxy_idx) :
    generate_galaxy_particles props galaxy_idx d =
      Except.error "Invalid galaxy index" := by
  unfold generate_galaxy_particles
  rw [if_pos h]

/-- Witness for C8 at a concrete instantiation. -/
theorem C8_index_out_of_range_witness :
    ((([] : List GalaxyProps).length : ℤ) ≤ 5) ∧
    generate_galaxy_particles [] 5 synthC = Except.error "Invalid galaxy index" :=
  ⟨by decide, C8_index_out_of_range [] 5 synthC (by decide)⟩

/-- C9 (implicit behavior): for every negative integer `k` with
`-(placed count) ≤ k ≤ -1`, `generate_galaxy_particles` does not raise the
out-of-range error: `k` passes the `galaxy_idx >= len` check and Python's
negative list indexing synthesizes the structure stored at position
`placed count + k`. -/
theorem C9_negative_index (props : List GalaxyProps) (k : ℤ) (d : SynthDraws)
    (h1 : -(props.length : ℤ) ≤ k) (h2 : k ≤ -1) :
    ∃ p, props.get? (k + (props.length : ℤ)).toNat = some p ∧
      generate_galaxy_particles props k d = Except.ok (synthesizeStructure p d) := by
  have hlen : (k + (props.length : ℤ)).toNat < props.length := by omega
  refine ⟨props.get ⟨(k + (props.length : ℤ)).toNat, hlen⟩, List.get?_eq_get hlen, ?_⟩
  have hnot : ¬ ((props.length : ℤ) ≤ k) := by omega
  unfold generate_galaxy_particles
  rw [if_neg hnot]
  unfold pyGet
  rw [if_neg (by omega : ¬ (0 : ℤ) ≤ k), if_pos (by omega : (0 : ℤ) ≤ k + (props.length : ℤ))]
  rw [List.get?_eq_get hlen]

/-- Witness for C9 at a concrete instantiation. -/
theorem C9_negative_index_witness :
    (-(([propsC].length : ℤ)) ≤ -1 ∧ (-1 : ℤ) ≤ -1) ∧
    ∃ p, [propsC].get? ((-1 + ([propsC].length : ℤ)).toNat) = some p ∧
      generate_galaxy_particles [propsC] (-1) synthC =
        Except.ok (synthesizeStructure p synthC) :=
  ⟨⟨by simp, le_refl _⟩,
    C9_negative_index [propsC] (-1) synthC (by simp) (le_refl _)⟩

lemma spiralLocal_lengths (count : ℕ) (scale rot : ℝ) (d : SynthDraws) :
    (spiralLocal count scale rot d).1.length = count ∧
    (spiralLocal count scale rot d).2.length = count := by
  unfold spiralLocal
  simp only [List.length_append, List.length_map, List.length_range]
  omega

lemma ellipticalLocal_lengths (count : ℕ) (d : SynthDraws) :
    (ellipticalLocal count d).1.length = count ∧
    (ellipticalLocal count d).2.length = count := by
  unfold ellipticalLocal
  simp

lemma overwriteFront_length (pos new : List EVec3) (h : new.length ≤ pos.length) :
    (overwriteFront pos new).length = pos.length := by
  simp only [overwriteFront, List.length_append, List.length_drop]
  omega

lemma overwriteFront_drop (pos new : List EVec3) :
    (overwriteFront pos new).drop new.length = pos.drop new.length := by
  simp [overwriteFront]

lemma clumpList_length (d : SynthDraws) (cc c : ℕ) :
    (clumpList d cc c).length = cc := by
  simp [clumpList]

lemma irregularFold_length (d : SynthDraws) (cc : ℕ) (l : List ℕ)
    (acc : List EVec3) (h : cc ≤ acc.length) :
    (l.foldl (fun a c => overwriteFront a (clumpList d cc c)) acc).length =
      acc.length := by
  induction l generalizing acc with
  | nil => rfl
  | cons c rest ih =>
    rw [List.foldl_cons, ih]
    · exact overwriteFront_length _ _ (by simpa [clumpList_length])
    · rw [overwriteFront_length _ _ (by simpa [clumpList_length])]
      exact h

lemma irregularLocal_lengths (count : ℕ) (d : SynthDraws) :
    (irregularLocal count d).1.length = count ∧
    (irregularLocal count d).2.length = count := by
  unfold irregularLocal
  constructor
  · have := irregularFold_length d (count / d.inumClumps)
      (List.range d.inumClumps) ((List.range count).map d.ibase)
      (by simpa using Nat.div_le_self count d.inumClumps)
    simpa using this
  · simp

lemma synthesizeStructure_lengths (p : GalaxyProps) (d : SynthDraws) :
    (synthesizeStructure p d).1.length = p.star_count ∧
    (synthesizeStructure p d).2.length = p.star_count := by
  unfold synthesizeStructure synthUntranslated
  cases hp : p.gtype with
  | spiral =>
      have := spiralLocal_lengths p.star_count (p.size_scale : ℝ) (p.rotation_speed : ℝ) d
      simpa using this
  | elliptical =>
      have := ellipticalLocal_lengths p.star_count d
      simpa using this
  | irregular =>
      have := irregularLocal_lengths p.star_count d
      simpa using this

lemma generate_galaxy_particles_ok (props : List GalaxyProps) (i : ℕ)
    (d : SynthDraws) (h : i < props.length) :
    generate_galaxy_particles props (i : ℤ) d =
      Except.ok (synthesizeStructure (props.get ⟨i, h⟩) d) := by
  unfold generate_galaxy_particles
  rw [if_neg (by omega)]
  unfold pyGet
  rw [if_pos (by omega)]
  have : ((i : ℤ)).toNat = i := rfl
  rw [this, List.get?_eq_get h]

/-- C6: for every placed structure of every archetype,
`generate_galaxy_particles` at a valid (documented-range) index returns
positions and velocities whose lengths equal each other and equal the
structure's `star_count`, with the positions being the archetype's
untranslated particle cloud shifted by the structure's world center. -/
theorem C6_particle_shapes (props : List GalaxyProps) (i : ℕ) (d : SynthDraws)
    (h : i < props.length) :
    ∃ p, props.get? i = some p ∧
      generate_galaxy_particles props (i : ℤ) d =
        Except.ok (synthesizeStructure p d) ∧
      (synthesizeStructure p d).1.length = p.star_count ∧
      (synthesizeStructure p d).2.length = p.star_count ∧
      (synthesizeStructure p d).1 =
        (synthUntranslated p d).1.map fun q => q + toE p.position := by
  refine ⟨props.get ⟨i, h⟩, List.get?_eq_get h, generate_galaxy_particles_ok props i d h,
    (synthesizeStructure_lengths _ d).1, (synthesizeStructure_lengths _ d).2, rfl⟩

/-- Witness for C6 at a concrete instantiation. -/
theorem C6_particle_shapes_witness :
    0 < [propsC].length ∧
    ∃ p, [propsC].get? 0 = some p ∧
      generate_galaxy_particles [propsC] ((0 : ℕ) : ℤ) synthC =
        Except.ok (synthesizeStructure p synthC) ∧
      (synthesizeStructure p synthC).1.length = p.star_count ∧
      (synthesizeStructure p synthC).2.length = p.star_count ∧
      (synthesizeStructure p synthC).1 =
        (synthUntranslated p synthC).1.map fun q => q + toE p.position :=
  ⟨by simp, C6_particle_shapes [propsC] 0 synthC (by simp)⟩

/-- C2: for every candidate list, requested structure count and minimum
separation, `place_galaxies` returns positions and properties lists of
equal length with at most `num_galaxies` entries; every pairwise distance
among the returned centers is at least `min_separation`, and — provided the
`randn(3)` orientation draws are nonzero, which the normalization step
requires — every returned structure's orientation vector has unit
length. -/
theorem C2_place_galaxies_invariants (dps : List Vec3) (n : ℕ) (m : ℚ)
    (sh : List ℕ) (dr : ℕ → GalaxyDraws)
    (hor : ∀ i, (dr i).orientDraw ≠ ((0 : ℚ), (0 : ℚ), (0 : ℚ))) :
    (place_galaxies dps (some n) m sh dr).2.length =
      (place_galaxies dps (some n) m sh dr).1.length ∧
    (place_galaxies dps (some n) m sh dr).1.length ≤ n ∧
    (place_galaxies dps (some n) m sh dr).1.Pairwise
      (fun a b => (m : ℝ) ≤ Real.sqrt ((dist2 a b : ℚ) : ℝ)) ∧
    ∀ p ∈ (place_galaxies dps (some n) m sh dr).2, enorm p.orientation = 1 := by
  refine ⟨place_galaxies_lengths dps (some n) m sh dr, ?_, ?_, ?_⟩
  · unfold place_galaxies
    split
    · simp
    · simp only
      have h := selectLoop_length_le dps (min n dps.length) m sh [] (Nat.zero_le _)
      exact le_trans h (min_le_left _ _)
  · unfold place_galaxies
    split
    · simp
    · simp only
      have h := selectLoop_pairSep dps (min n dps.length) m sh [] (List.Pairwise.nil)
      exact h.imp fun hab => (sepDecide_iff m _ _).1 hab
  · unfold place_galaxies
    split
    · simp
    · simp only
      intro p hp
      rw [List.mem_map] at hp
      obtain ⟨e, _, rfl⟩ := hp
      exact enorm_normalize3 _ (hor e.1)

/-- Witness for C2 at a concrete instantiation. -/
theorem C2_place_galaxies_invariants_witness :
    (∀ i : ℕ, ((fun _ : ℕ => galaxyDrawsC) i).orientDraw ≠ ((0 : ℚ), (0 : ℚ), (0 : ℚ))) ∧
    ((place_galaxies [((0 : ℚ), (0 : ℚ), (0 : ℚ)), ((1 : ℚ), (0 : ℚ), (0 : ℚ))]
        (some 2) 0 [0, 1] fun _ : ℕ => galaxyDrawsC).2.length =
      (place_galaxies [((0 : ℚ), (0 : ℚ), (0 : ℚ)), ((1 : ℚ), (0 : ℚ), (0 : ℚ))]
        (some 2) 0 [0, 1] fun _ : ℕ => galaxyDrawsC).1.length ∧
    (place_galaxies [((0 : ℚ), (0 : ℚ), (0 : ℚ)), ((1 : ℚ), (0 : ℚ), (0 : ℚ))]
        (some 2) 0 [0, 1] fun _ : ℕ => galaxyDrawsC).1.length ≤ 2 ∧
    (place_galaxies [((0 : ℚ), (0 : ℚ), (0 : ℚ)), ((1 : ℚ), (0 : ℚ), (0 : ℚ))]
        (some 2) 0 [0, 1] fun _ : ℕ => galaxyDrawsC).1.Pairwise
      (fun a b => ((0 : ℚ) : ℝ) ≤ Real.sqrt ((dist2 a b : ℚ) : ℝ)) ∧
    ∀ p ∈ (place_galaxies [((0 : ℚ), (0 : ℚ), (0 : ℚ)), ((1 : ℚ), (0 : ℚ), (0 : ℚ))]
        (some 2) 0 [0, 1] fun _ : ℕ => galaxyDrawsC).2, enorm p.orientation = 1) :=
  ⟨fun _ => (by decide : galaxyDrawsC.orientDraw ≠ ((0 : ℚ), (0 : ℚ), (0 : ℚ))),
    C2_place_galaxies_invariants [((0 : ℚ), (0 : ℚ), (0 : ℚ)), ((1 : ℚ), (0 : ℚ), (0 : ℚ))]
      2 0 [0, 1] (fun _ : ℕ => galaxyDrawsC)
      (fun _ => (by decide : galaxyDrawsC.orientDraw ≠ ((0 : ℚ), (0 : ℚ), (0 : ℚ))))⟩

lemma enum_fst_pairwise {β : Type} (l : List β) :
    l.enum.Pairwise fun a b => a.1 ≠ b.1 := by
  have h : (l.enum.map Prod.fst).Nodup := List.nodup_enum_map_fst l
  rwa [List.Nodup, List.pairwise_map] at h

lemma mem_gridTriples {α : Type} (g : Grid α) (i j k : ℕ) (a : α) :
    ((i, j, k), a) ∈ gridTriples g ↔ valAt g (i, j, k) = some a := by
  simp only [gridTriples, List.mem_flatMap, List.mem_map, valAt]
  constructor
  · rintro ⟨⟨i1, p⟩, hip, ⟨j1, r⟩, hjr, ⟨k1, a1⟩, hkv, heq⟩
    rw [Prod.mk.injEq, Prod.mk.injEq, Prod.mk.injEq] at heq
    obtain ⟨⟨hi, hj, hk⟩, ha⟩ := heq
    subst hi; subst hj; subst hk; subst ha
    rw [List.mk_mem_enum_iff_getElem?] at hip hjr hkv
    simp [hip, hjr, hkv]
  · intro h
    cases hp : g[i]? with
    | none => simp [hp] at h
    | some p =>
      cases hr : p[j]? with
      | none => simp [hp, hr] at h
      | some r =>
        cases hv : r[k]? with
        | none => simp [hp, hr, hv] at h
        | some a1 =>
          have ha : a1 = a := by
            simpa [hp, hr, hv] using h
          subst ha
          exact ⟨(i, p), List.mk_mem_enum_iff_getElem?.2 hp, (j, r),
            List.mk_mem_enum_iff_getElem?.2 hr, (k, a1),
            List.mk_mem_enum_iff_getElem?.2 hv, rfl⟩

lemma gridTriples_fst_nodup {α : Type} (g : Grid α) :
    ((gridTriples g).map Prod.fst).Nodup := by
  unfold gridTriples
  simp only [List.map_flatMap, List.map_map]
  refine List.nodup_flatMap.2 ⟨?_, ?_⟩
  · intro ip _
    refine List.nodup_flatMap.2 ⟨?_, ?_⟩
    · intro jr _
      refine (List.pairwise_map).2 ((enum_fst_pairwise _).imp ?_)
      intro a b hab heq
      exact hab (by simpa using heq)
    · refine (enum_fst_pairwise _).imp ?_
      intro a b hab
      intro x hx hx'
      simp only [Function.comp, List.mem_map] at hx hx'
      obtain ⟨kv, _, rfl⟩ := hx
      obtain ⟨kv', _, heq⟩ := hx'
      rw [Prod.mk.injEq, Prod.mk.injEq] at heq
      exact hab heq.2.1.symm
  · refine (enum_fst_pairwise _).imp ?_
    intro a b hab
    intro x hx hx'
    simp only [Function.comp, List.mem_flatMap, List.mem_map] at hx hx'
    obtain ⟨jr, _, kv, _, rfl⟩ := hx
    obtain ⟨jr', _, kv', _, heq⟩ := hx'
    rw [Prod.mk.injEq] at heq
    exact hab heq.1.symm

lemma highIdxG_nodup {α : Type} [LinearOrder α] (g : Grid α) (t : α) :
    (highIdxG g t).Nodup := by
  unfold highIdxG
  have hsub : (((gridTriples g).filter fun e => decide (t < e.2)).map Prod.fst).Sublist
      ((gridTriples g).map Prod.fst) := (List.filter_sublist _).map _
  exact (gridTriples_fst_nodup g).sublist hsub

lemma mem_highIdxG {α : Type} [LinearOrder α] (g : Grid α) (t : α) (i j k : ℕ) :
    (i, j, k) ∈ highIdxG g t ↔ ∃ a, valAt g (i, j, k) = some a ∧ t < a := by
  unfold highIdxG
  simp only [List.mem_map, List.mem_filter, decide_eq_true_eq]
  constructor
  · rintro ⟨⟨v, a⟩, ⟨hmem, hlt⟩, rfl⟩
    exact ⟨a, (mem_gridTriples g _ _ _ a).1 hmem, hlt⟩
  · rintro ⟨a, hv, hlt⟩
    exact ⟨((i, j, k), a), ⟨(mem_gridTriples g i j k a).2 hv, hlt⟩, rfl⟩

/-- C4: `get_high_density_positions` returns exactly the voxel indices
whose value is strictly greater than the threshold (characterized through
`highIdxG`, whose membership is equivalent to storing a value above the
threshold); when more than `max_positions` qualify it returns the
`max_positions` qualifying voxels selected by the without-replacement
`np.random.choice` draw (distinct entries, all qualifying); and when none
qualify it returns an empty sequence rather than an error. -/
theorem C4_high_density_positions {α : Type} [LinearOrder α] (g : Grid α)
    (t : α) (max_positions : ℕ) (choice : List ℕ)
    (hclen : choice.length = max_positions) (hcnd : choice.Nodup)
    (hcin : ∀ i ∈ choice, i < (highIdxG g t).length) :
    (∀ i j k, (i, j, k) ∈ highIdxG g t ↔
      ∃ a, valAt g (i, j, k) = some a ∧ t < a) ∧
    ((highIdxG g t).length ≤ max_positions →
      density_get_high_density_positions (some g) t max_positions choice =
        Except.ok (highIdxG g t)) ∧
    (max_positions < (highIdxG g t).length →
      ∃ r, density_get_high_density_positions (some g) t max_positions choice =
          Except.ok r ∧
        r.length = max_positions ∧ r.Nodup ∧ ∀ v ∈ r, v ∈ highIdxG g t) ∧
    ((highIdxG g t).length = 0 →
      density_get_high_density_positions (some g) t max_positions choice =
        Except.ok []) := by
  refine ⟨fun i j k => mem_highIdxG g t i j k, ?_, ?_, ?_⟩
  · intro hle
    by_cases h0 : (highIdxG g t).length = 0
    · have h0' := List.length_eq_zero.1 h0
      simp [density_get_high_density_positions, getHighCore, h0']
    · simp only [density_get_high_density_positions, getHighCore]
      rw [if_neg h0, if_neg (by omega)]
  · intro hgt
    refine ⟨choice.map fun i => (highIdxG g t).getD i (0, 0, 0), ?_, ?_, ?_, ?_⟩
    · simp only [density_get_high_density_positions, getHighCore]
      rw [if_neg (by omega), if_pos hgt]
    · simpa using hclen
    · rw [List.Nodup, List.pairwise_map]
      refine List.Pairwise.imp_of_mem ?_ hcnd
      intro a b ha hb hab heq
      rw [List.getD_eq_getElem _ _ (hcin a ha), List.getD_eq_getElem _ _ (hcin b hb)] at heq
      exact hab ((highIdxG_nodup g t).getElem_inj_iff.1 heq)
    · intro v hv
      rw [List.mem_map] at hv
      obtain ⟨i, hi, rfl⟩ := hv
      rw [List.getD_eq_getElem _ _ (hcin i hi)]
      exact List.getElem_mem _
  · intro h0
    have h0' := List.length_eq_zero.1 h0
    simp [density_get_high_density_positions, getHighCore, h0']

/-- Witness for C4 at a concrete instantiation. -/
theorem C4_high_density_positions_witness :
    (([] : List ℕ).length = 0 ∧ ([] : List ℕ).Nodup ∧
      ∀ i ∈ ([] : List ℕ), i < (highIdxG ([[[ (1 : ℚ) ]]] : Grid ℚ) 0).length) ∧
    ((∀ i j k, (i, j, k) ∈ highIdxG ([[[ (1 : ℚ) ]]] : Grid ℚ) 0 ↔
      ∃ a, valAt ([[[ (1 : ℚ) ]]] : Grid ℚ) (i, j, k) = some a ∧ 0 < a) ∧
    ((highIdxG ([[[ (1 : ℚ) ]]] : Grid ℚ) 0).length ≤ 0 →
      density_get_high_density_positions (some ([[[ (1 : ℚ) ]]] : Grid ℚ)) 0 0 [] =
        Except.ok (highIdxG ([[[ (1 : ℚ) ]]] : Grid ℚ) 0)) ∧
    (0 < (highIdxG ([[[ (1 : ℚ) ]]] : Grid ℚ) 0).length →
      ∃ r, density_get_high_density_positions (some ([[[ (1 : ℚ) ]]] : Grid ℚ)) 0 0 [] =
          Except.ok r ∧
        r.length = 0 ∧ r.Nodup ∧ ∀ v ∈ r, v ∈ highIdxG ([[[ (1 : ℚ) ]]] : Grid ℚ) 0) ∧
    ((highIdxG ([[[ (1 : ℚ) ]]] : Grid ℚ) 0).length = 0 →
      density_get_high_density_positions (some ([[[ (1 : ℚ) ]]] : Grid ℚ)) 0 0 [] =
        Except.ok [])) :=
  ⟨⟨rfl, List.nodup_nil, fun i hi => absurd hi (List.not_mem_nil i)⟩,
    C4_high_density_positions ([[[ (1 : ℚ) ]]] : Grid ℚ) 0 0 []
      rfl List.nodup_nil (fun i hi => absurd hi (List.not_mem_nil i))⟩

lemma gridOf_shape {α : Type} (vs : ℕ × ℕ × ℕ) (f : ℕ → ℕ → ℕ → α) :
    gridShape (gridOf vs f) vs := by
  refine ⟨by simp [gridOf], ?_⟩
  intro p hp
  simp only [gridOf, List.mem_map] at hp
  obtain ⟨i, _, rfl⟩ := hp
  refine ⟨by simp, ?_⟩
  intro r hr
  simp only [List.mem_map] at hr
  obtain ⟨j, _, rfl⟩ := hr
  simp

lemma of_mem_gridVals_gridOf {α : Type} (vs : ℕ × ℕ × ℕ) (f : ℕ → ℕ → ℕ → α)
    (x : α) (hx : x ∈ gridVals (gridOf vs f)) : ∃ i j k, x = f i j k := by
  unfold gridVals gridOf at hx
  rw [List.mem_flatten] at hx
  obtain ⟨row, hrow, hxr⟩ := hx
  rw [List.mem_flatten] at hrow
  obtain ⟨plane, hpl, hrp⟩ := hrow
  rw [List.mem_map] at hpl
  obtain ⟨i, _, rfl⟩ := hpl
  rw [List.mem_map] at hrp
  obtain ⟨j, _, rfl⟩ := hrp
  rw [List.mem_map] at hxr
  obtain ⟨k, _, rfl⟩ := hxr
  exact ⟨i, j, k, rfl⟩

lemma snd_mem_of_mem_enum {α : Type} {l : List α} {kv : ℕ × α}
    (h : kv ∈ l.enum) : kv.2 ∈ l := by
  obtain ⟨i, a⟩ := kv
  rw [List.mk_mem_enum_iff_getElem?] at h
  exact List.getElem?_mem h

lemma of_mem_gridVals_addGradient (g : Grid ℝ) (vs : ℕ × ℕ × ℕ)
    (c : ℝ × ℝ × ℝ) (fo : ℝ) (x : ℝ)
    (hx : x ∈ gridVals (addGradientCore g vs c fo)) :
    ∃ v ∈ gridVals g, ∃ e : ℝ, e ≤ 0 ∧ x = v * Real.exp e := by
  unfold gridVals addGradientCore at hx
  rw [List.mem_flatten] at hx
  obtain ⟨row, hrow, hxr⟩ := hx
  rw [List.mem_flatten] at hrow
  obtain ⟨plane, hpl, hrp⟩ := hrow
  rw [List.mem_map] at hpl
  obtain ⟨ip, hip, rfl⟩ := hpl
  rw [List.mem_map] at hrp
  obtain ⟨jr, hjr, rfl⟩ := hrp
  rw [List.mem_map] at hxr
  obtain ⟨kv, hkv, rfl⟩ := hxr
  refine ⟨kv.2, ?_, ?_⟩
  · unfold gridVals
    rw [List.mem_flatten]
    refine ⟨jr.2, ?_, snd_mem_of_mem_enum hkv⟩
    rw [List.mem_flatten]
    exact ⟨ip.2, snd_mem_of_mem_enum hip, snd_mem_of_mem_enum hjr⟩
  · refine ⟨_, ?_, rfl⟩
    exact div_nonpos_iff.2 (Or.inr ⟨neg_nonpos_of_nonneg (sq_nonneg _), by positivity⟩)

lemma addGradientCore_range (g : Grid ℝ) (vs : ℕ × ℕ × ℕ)
    (c : ℝ × ℝ × ℝ) (fo : ℝ) (hg : ∀ v ∈ gridVals g, 0 ≤ v ∧ v ≤ 1) :
    ∀ x ∈ gridVals (addGradientCore g vs c fo), 0 ≤ x ∧ x ≤ 1 := by
  intro x hx
  obtain ⟨v, hv, e, he, rfl⟩ := of_mem_gridVals_addGradient g vs c fo x hx
  obtain ⟨hv0, hv1⟩ := hg v hv
  exact ⟨mul_nonneg hv0 (Real.exp_pos e).le,
    mul_le_one₀ hv1 (Real.exp_pos e).le (Real.exp_le_one_iff.2 he)⟩

lemma smooth3_range (vs : ℕ × ℕ × ℕ) (w : (ℕ × ℕ × ℕ) → (ℕ × ℕ × ℕ) → ℝ)
    (g : ℕ → ℕ → ℕ → ℝ) (i j k : ℕ)
    (hw : ∀ u, 0 ≤ w (i, j, k) u)
    (hw1 : (∑ u ∈ Finset.range vs.1 ×ˢ Finset.range vs.2.1 ×ˢ Finset.range vs.2.2,
      w (i, j, k) u) = 1)
    (hg : ∀ a b c, 0 ≤ g a b c ∧ g a b c ≤ 1) :
    0 ≤ smooth3 vs w g i j k ∧ smooth3 vs w g i j k ≤ 1 := by
  unfold smooth3
  constructor
  · exact Finset.sum_nonneg fun u _ => mul_nonneg (hw u) (hg _ _ _).1
  · calc (∑ u ∈ Finset.range vs.1 ×ˢ Finset.range vs.2.1 ×ˢ Finset.range vs.2.2,
        w (i, j, k) u * g u.1 u.2.1 u.2.2)
        ≤ ∑ u ∈ Finset.range vs.1 ×ˢ Finset.range vs.2.1 ×ˢ Finset.range vs.2.2,
          w (i, j, k) u :=
          Finset.sum_le_sum fun u _ => by
            have := mul_le_mul_of_nonneg_left (hg u.1 u.2.1 u.2.2).2 (hw u)
            simpa using this
    _ = 1 := hw1

/-- C3: for all seeds and volume sizes, `DensityField.generate` returns a
grid whose shape equals `volume_size` and whose every value lies in
[0, 1] — in the coherent-noise path because the backend's native range
[-1, 1] is normalized by `(value + 1) / 2`, and in the smoothed-random
fallback path because the seeded uniform field lies in [0, 1) and the
Gaussian blur is a normalized non-negative kernel; and `add_gradient`,
being a multiplication by `exp(-dist^2 / (2 * falloff^2)) ≤ 1` at each
voxel, maps any grid with values in [0, 1] to a grid with values in
[0, 1]. -/
theorem C3_field_range (vs : ℕ × ℕ × ℕ) (seed : Option ℕ) (nt : NoiseType)
    (octaves : ℕ) (persistence lacunarity scl : ℝ) (env : NoiseEnv) (rng : ℕ)
    (w : (ℕ × ℕ × ℕ) → (ℕ × ℕ × ℕ) → ℝ)
    (hpn : ∀ x y z o pe la b, -1 ≤ env.pn x y z o pe la b ∧ env.pn x y z o pe la b ≤ 1)
    (hsn : ∀ x y z o pe la b, -1 ≤ env.sn x y z o pe la b ∧ env.sn x y z o pe la b ≤ 1)
    (hrf : ∀ s a b c, 0 ≤ env.randomField s a b c ∧ env.randomField s a b c < 1)
    (hw : ∀ v u, 0 ≤ w v u)
    (hw1 : ∀ v, (∑ u ∈ Finset.range vs.1 ×ˢ Finset.range vs.2.1 ×ˢ Finset.range vs.2.2,
      w v u) = 1) :
    gridShape (density_generate vs seed nt octaves persistence lacunarity scl env rng w) vs ∧
    (∀ x ∈ gridVals (density_generate vs seed nt octaves persistence lacunarity scl env rng w),
      0 ≤ x ∧ x ≤ 1) ∧
    (∀ g : Grid ℝ, ∀ c : ℝ × ℝ × ℝ, ∀ fo : ℝ,
      (∀ v ∈ gridVals g, 0 ≤ v ∧ v ≤ 1) →
      ∀ x ∈ gridVals (addGradientCore g vs c fo), 0 ≤ x ∧ x ≤ 1) := by
  refine ⟨?_, ?_, fun g c fo hg => addGradientCore_range g vs c fo hg⟩
  · unfold density_generate
    dsimp only
    split
    · exact gridOf_shape _ _
    · exact gridOf_shape _ _
  · intro x hx
    unfold density_generate at hx
    dsimp only at hx
    by_cases ha : env.available = true
    · rw [if_pos ha] at hx
      obtain ⟨i, j, k, rfl⟩ := of_mem_gridVals_gridOf _ _ _ hx
      cases nt with
      | perlin =>
          obtain ⟨h1, h2⟩ := hpn ((i : ℝ) * scl) ((j : ℝ) * scl) ((k : ℝ) * scl)
            octaves persistence lacunarity (seed.getD rng)
          constructor <;> [linarith; linarith]
      | simplex =>
          obtain ⟨h1, h2⟩ := hsn ((i : ℝ) * scl) ((j : ℝ) * scl) ((k : ℝ) * scl)
            octaves persistence lacunarity (seed.getD rng)
          constructor <;> [linarith; linarith]
    · rw [if_neg ha] at hx
      obtain ⟨i, j, k, rfl⟩ := of_mem_gridVals_gridOf _ _ _ hx
      exact smooth3_range vs w (env.randomField (seed.getD rng)) i j k
        (fun u => hw _ u) (hw1 _)
        (fun a b c => ⟨(hrf _ a b c).1, (hrf _ a b c).2.le⟩)

/-- Witness for C3 at a concrete instantiation. -/
theorem C3_field_range_witness :
    ((∀ x y z o pe la b, -1 ≤ envC.pn x y z o pe la b ∧ envC.pn x y z o pe la b ≤ 1) ∧
     (∀ x y z o pe la b, -1 ≤ envC.sn x y z o pe la b ∧ envC.sn x y z o pe la b ≤ 1) ∧
     (∀ s a b c, 0 ≤ envC.randomField s a b c ∧ envC.randomField s a b c < 1) ∧
     (∀ v u : ℕ × ℕ × ℕ, 0 ≤ (fun _ _ : ℕ × ℕ × ℕ => (1 : ℝ)) v u) ∧
     (∀ v : ℕ × ℕ × ℕ,
       (∑ u ∈ Finset.range 1 ×ˢ Finset.range 1 ×ˢ Finset.range 1,
         (fun _ _ : ℕ × ℕ × ℕ => (1 : ℝ)) v u) = 1)) ∧
    (gridShape (density_generate (1, 1, 1) (some 0) NoiseType.perlin 4 (1 / 2) 2 (5 / 100)
        envC 0 (fun _ _ => 1)) (1, 1, 1) ∧
     (∀ x ∈ gridVals (density_generate (1, 1, 1) (some 0) NoiseType.perlin 4 (1 / 2) 2
        (5 / 100) envC 0 (fun _ _ => 1)), 0 ≤ x ∧ x ≤ 1) ∧
     (∀ g : Grid ℝ, ∀ c : ℝ × ℝ × ℝ, ∀ fo : ℝ,
       (∀ v ∈ gridVals g, 0 ≤ v ∧ v ≤ 1) →
       ∀ x ∈ gridVals (addGradientCore g (1, 1, 1) c fo), 0 ≤ x ∧ x ≤ 1)) := by
  constructor
  · refine ⟨?_, ?_, ?_, ?_, ?_⟩
    · intro x y z o pe la b
      unfold envC
      exact ⟨neg_nonpos_of_nonneg zero_le_one, zero_le_one⟩
    · intro x y z o pe la b
      unfold envC
      exact ⟨neg_nonpos_of_nonneg zero_le_one, zero_le_one⟩
    · intro s a b c
      unfold envC
      exact ⟨le_refl 0, zero_lt_one⟩
    · intro v u
      exact zero_le_one
    · intro v
      simp
  · refine C3_field_range (1, 1, 1) (some 0) NoiseType.perlin 4 (1 / 2) 2 (5 / 100)
      envC 0 (fun _ _ => 1) ?_ ?_ ?_ ?_ ?_
    · intro x y z o pe la b
      unfold envC
      exact ⟨neg_nonpos_of_nonneg zero_le_one, zero_le_one⟩
    · intro x y z o pe la b
      unfold envC
      exact ⟨neg_nonpos_of_nonneg zero_le_one, zero_le_one⟩
    · intro s a b c
      unfold envC
      exact ⟨le_refl 0, zero_lt_one⟩
    · intro v u
      exact zero_le_one
    · intro v
      simp

lemma foldl_overwrite_last (d : SynthDraws) (cc n : ℕ) (base : List EVec3)
    (h : 1 ≤ n) :
    (List.range n).foldl (fun a c => overwriteFront a (clumpList d cc c)) base =
      overwriteFront
        ((List.range (n - 1)).foldl (fun a c => overwriteFront a (clumpList d cc c)) base)
        (clumpList d cc (n - 1)) := by
  conv_lhs => rw [show n = (n - 1) + 1 by omega]
  rw [List.range_succ, List.foldl_append, List.foldl_cons, List.foldl_nil]

lemma foldl_overwrite_drop (d : SynthDraws) (cc : ℕ) (l : List ℕ)
    (base : List EVec3) :
    ((l.foldl (fun a c => overwriteFront a (clumpList d cc c)) base)).drop cc =
      base.drop cc := by
  induction l generalizing base with
  | nil => rfl
  | cons c rest ih =>
    rw [List.foldl_cons, ih]
    have := overwriteFront_drop base (clumpList d cc c)
    rwa [clumpList_length] at this

/-- C10 (implicit behavior): in irregular-archetype synthesis every clump
overwrites the same leading slice `positions[:count // num_clumps]`, so the
returned positions are the uniform-cube draw everywhere except that single
fixed prefix, which holds (only) the last clump's particles: at most one
clump survives in the output regardless of `num_clumps`. -/
theorem C10_irregular_clump_overwrite (p : GalaxyProps) (d : SynthDraws)
    (hty : p.gtype = GalaxyType.irregular) (hn : 1 ≤ d.inumClumps) :
    (∀ i < p.star_count / d.inumClumps,
      (synthesizeStructure p d).1[i]? =
        some (d.icSize (d.inumClumps - 1) • d.icPts (d.inumClumps - 1) i +
          d.icCenter (d.inumClumps - 1) + toE p.position)) ∧
    (∀ i, p.star_count / d.inumClumps ≤ i → i < p.star_count →
      (synthesizeStructure p d).1[i]? = some (d.ibase i + toE p.position)) := by
  unfold synthesizeStructure synthUntranslated
  rw [hty]
  unfold irregularLocal
  dsimp only
  constructor
  · intro i hi
    rw [List.getElem?_map, foldl_overwrite_last d _ _ _ hn]
    unfold overwriteFront
    rw [List.getElem?_append_left (by simpa [clumpList_length] using hi)]
    unfold clumpList
    rw [List.getElem?_map, List.getElem?_range hi]
    rfl
  · intro i hcc hcount
    rw [List.getElem?_map]
    have hdrop := foldl_overwrite_drop d (p.star_count / d.inumClumps)
      (List.range d.inumClumps) ((List.range p.star_count).map d.ibase)
    have h1 : ((List.range d.inumClumps).foldl
        (fun a c => overwriteFront a (clumpList d (p.star_count / d.inumClumps) c))
        ((List.range p.star_count).map d.ibase))[i]? =
        (((List.range d.inumClumps).foldl
        (fun a c => overwriteFront a (clumpList d (p.star_count / d.inumClumps) c))
        ((List.range p.star_count).map d.ibase)).drop
          (p.star_count / d.inumClumps))[i - p.star_count / d.inumClumps]? := by
      rw [List.getElem?_drop]
      congr 1
      omega
    rw [h1, hdrop, List.getElem?_drop]
    rw [show p.star_count / d.inumClumps + (i - p.star_count / d.inumClumps) = i by omega]
    rw [List.getElem?_map, List.getElem?_range hcount]
    rfl

/-- Witness for C10 at a concrete instantiation. -/
theorem C10_irregular_clump_overwrite_witness :
    (propsIrr.gtype = GalaxyType.irregular ∧ 1 ≤ synthC.inumClumps) ∧
    ((∀ i < propsIrr.star_count / synthC.inumClumps,
      (synthesizeStructure propsIrr synthC).1[i]? =
        some (synthC.icSize (synthC.inumClumps - 1) • synthC.icPts (synthC.inumClumps - 1) i +
          synthC.icCenter (synthC.inumClumps - 1) + toE propsIrr.position)) ∧
    (∀ i, propsIrr.star_count / synthC.inumClumps ≤ i → i < propsIrr.star_count →
      (synthesizeStructure propsIrr synthC).1[i]? =
        some (synthC.ibase i + toE propsIrr.position))) :=
  ⟨⟨rfl, by decide⟩, C10_irregular_clump_overwrite propsIrr synthC rfl (by decide)⟩

lemma generate_universe_zero (seed : Option ℕ) (vs : ℕ × ℕ × ℕ) (ws : ℚ)
    (env : NoiseEnv) (w : (ℕ × ℕ × ℕ) → (ℕ × ℕ × ℕ) → ℝ) (d : UDraws) :
    generate_universe seed vs 0 ws env w d = ([], [], []) := by
  unfold generate_universe
  dsimp only
  rw [place_galaxies_zero]
  simp [random_universe]

lemma starDraw_ge (dr : GalaxyDraws) (h : starDrawInRange dr) :
    200 ≤ dr.starDraw := by
  unfold starDrawInRange at h
  cases htype : dr.typeDraw <;> rw [htype] at h <;> omega

lemma place_props_star (dps : List Vec3) (ng : Option ℕ) (m : ℚ)
    (sh : List ℕ) (dr : ℕ → GalaxyDraws) (i : ℕ) (q : Vec3)
    (hq : (place_galaxies dps ng m sh dr).1[i]? = some q) :
    (place_galaxies dps ng m sh dr).2[i]? =
      some (generate_galaxy_properties q (dr i)) := by
  unfold place_galaxies at hq ⊢
  by_cases hd : dps.length = 0
  · rw [if_pos hd] at hq
    simp at hq
  · rw [if_neg hd] at hq ⊢
    simp only [List.getElem?_map, List.enum, List.getElem?_enumFrom, Nat.zero_add] at hq ⊢
    rw [hq]
    rfl

/-- C1 (amended): for every seed, volume size and world scale, and every
requested structure count of at least one, `generate_universe` returns
non-empty position, velocity and type arrays: if zero structures are
accepted it switches to the fallback generator producing
`num_structures * 1000` particles, and otherwise every accepted structure
contributes `star_count ≥ 200` particles (the NumPy `randint` ranges are
the `starDrawInRange` hypothesis).  The original claim's "for every
num_structures" fails at `num_structures = 0`
(`C1_generate_universe_counterexample`). -/
theorem C1_generate_universe_nonempty (seed : Option ℕ) (vs : ℕ × ℕ × ℕ)
    (num : ℕ) (ws : ℚ) (env : NoiseEnv)
    (w : (ℕ × ℕ × ℕ) → (ℕ × ℕ × ℕ) → ℝ) (d : UDraws)
    (hnum : 1 ≤ num) (hstar : ∀ i, starDrawInRange (d.galaxy i)) :
    0 < (generate_universe seed vs num ws env w d).1.length ∧
    0 < (generate_universe seed vs num ws env w d).2.1.length ∧
    0 < (generate_universe seed vs num ws env w d).2.2.length := by
  unfold generate_universe
  dsimp only
  generalize hW : universeCandidates seed vs num ws env w d = W
  generalize hPR : place_galaxies W (some num) (ws * (15 / 100))
    (d.shuffleOf W.length) d.galaxy = PR
  by_cases h0 : PR.1.length = 0
  · rw [if_pos h0]
    unfold random_universe
    dsimp only
    simp only [List.length_map, List.length_range, List.length_replicate]
    omega
  · rw [if_neg h0]
    have hlen2 : PR.2.length = PR.1.length := by
      rw [← hPR]
      exact place_galaxies_lengths _ _ _ _ _
    have hpos2 : 0 < PR.2.length := by omega
    obtain ⟨q, hq⟩ : ∃ q, PR.1[0]? = some q :=
      ⟨_, List.getElem?_eq_getElem (by omega)⟩
    have hprops0 : PR.2[0]? =
        some (generate_galaxy_properties q (d.galaxy 0)) := by
      rw [← hPR] at hq ⊢
      exact place_props_star _ _ _ _ _ 0 q hq
    have hget0 : PR.2.get ⟨0, hpos2⟩ =
        generate_galaxy_properties q (d.galaxy 0) := by
      have h' := List.getElem?_eq_getElem hpos2
      rw [hprops0] at h'
      simpa [List.get_eq_getElem] using h'.symm
    have hok : generate_galaxy_particles PR.2 (Int.ofNat 0) (d.synth 0) =
        Except.ok (synthesizeStructure (PR.2.get ⟨0, hpos2⟩) (d.synth 0)) :=
      generate_galaxy_particles_ok PR.2 0 (d.synth 0) hpos2
    have hstar0 : 200 ≤ (PR.2.get ⟨0, hpos2⟩).star_count := by
      rw [hget0]
      exact starDraw_ge (d.galaxy 0) (hstar 0)
    obtain ⟨mm, hmm⟩ : ∃ mm, PR.1.length = mm + 1 := ⟨PR.1.length - 1, by omega⟩
    rw [hmm, List.range_succ_eq_map]
    simp only [List.map_cons, List.flatten_cons, List.length_append]
    rw [hok]
    dsimp only
    have hs1 := (synthesizeStructure_lengths (PR.2.get ⟨0, hpos2⟩) (d.synth 0)).1
    have hs2 := (synthesizeStructure_lengths (PR.2.get ⟨0, hpos2⟩) (d.synth 0)).2
    refine ⟨by omega, by omega, ?_⟩
    rw [List.length_replicate]
    omega

/-- Counterexample to C1 as stated: at the concrete input
`seed = None`, `volume_size = (1, 1, 1)`, `num_structures = 0`,
`world_scale = 200`, `generate_universe` returns empty position, velocity
and type arrays — the fallback produces `0 * 1000 = 0` particles, so the
result does have zero particles for this input. -/
theorem C1_generate_universe_counterexample :
    (generate_universe none (1, 1, 1) 0 200 envC (fun _ _ => 1) udrawsC).1.length = 0 ∧
    (generate_universe none (1, 1, 1) 0 200 envC (fun _ _ => 1) udrawsC).2.1.length = 0 ∧
    (generate_universe none (1, 1, 1) 0 200 envC (fun _ _ => 1) udrawsC).2.2.length = 0 := by
  rw [generate_universe_zero]
  exact ⟨rfl, rfl, rfl⟩

/-- Witness for the amended C1 at a concrete instantiation. -/
theorem C1_generate_universe_nonempty_witness :
    ((1 : ℕ) ≤ 1 ∧ ∀ i : ℕ, starDrawInRange (udrawsC.galaxy i)) ∧
    (0 < (generate_universe none (1, 1, 1) 1 200 envC (fun _ _ => 1) udrawsC).1.length ∧
     0 < (generate_universe none (1, 1, 1) 1 200 envC (fun _ _ => 1) udrawsC).2.1.length ∧
     0 < (generate_universe none (1, 1, 1) 1 200 envC (fun _ _ => 1) udrawsC).2.2.length) :=
  ⟨⟨le_refl 1, fun _ => ⟨le_refl 500, (by decide : (500 : ℕ) < 3000)⟩⟩,
    C1_generate_universe_nonempty none (1, 1, 1) 1 200 envC (fun _ _ => 1) udrawsC
      (le_refl 1) (fun _ => ⟨le_refl 500, (by decide : (500 : ℕ) < 3000)⟩)⟩
